import Mathlib

/-!
Shallow embedding of the auto-remediation backend core
(`backend/app/services/error_service.py`, `approval_service.py`,
`monitoring_service.py` and the SQLAlchemy models in
`backend/app/models/error.py`), together with theorems settling the
behavioural claims about incident deduplication, remediation-attempt
updates, the approval workflow and the alert evaluation loop.

Modelling conventions:
* the relational store is a list of rows; SQLAlchemy `scalar_one_or_none`
  is translated as in the source (zero rows gives `none`, exactly one row
  gives `some`, two or more rows raises `MultipleResultsFound`);
* primary keys are `Nat`s supplied by the caller (in the source they are
  freshly generated UUIDs), timestamps are `Nat`s;
* opaque JSON payloads are modelled as `String`s;
* Python exceptions become an explicit `PyError` value; a `try ... except
  Exception` block that re-raises a `DatabaseError` becomes an explicit
  wrapping step on the error branch, mirroring the source;
* in-place mutation of a fetched ORM row is modelled as replacement of the
  rows carrying the same primary key (primary keys are unique in the
  database, which theorems assume via explicit freshness hypotheses).
-/

/-- Python exception values raised by the embedded code. The rendered
message (`errStr`) mirrors `str(e)` up to the quote characters. -/
inductive PyError where
  | notFound (resource resource_id : String)
  | databaseError (detail operation : String)
  | attributeError (cls attr : String)
  | multipleResultsFound
  | valueError (msg : String)
deriving Repr, DecidableEq

instance {ε α : Type} [DecidableEq ε] [DecidableEq α] : DecidableEq (Except ε α) :=
  fun x y =>
    match x, y with
    | .ok a, .ok b =>
        if h : a = b then .isTrue (h ▸ rfl)
        else .isFalse (fun hh => h (Except.ok.inj hh))
    | .ok _, .error _ => .isFalse (fun hh => Except.noConfusion hh)
    | .error _, .ok _ => .isFalse (fun hh => Except.noConfusion hh)
    | .error e, .error f =>
        if h : e = f then .isTrue (h ▸ rfl)
        else .isFalse (fun hh => h (Except.error.inj hh))

/-- `str(e)` for the exceptions above (from `app/core/exceptions.py`;
`NotFoundError` and `DatabaseError` pass their formatted detail to
`Exception.__init__`). -/
def errStr : PyError → String
  | .notFound r i => r ++ " with id " ++ i ++ " not found"
  | .databaseError d op => "Database error: " ++ d ++ " (operation: " ++ op ++ ")"
  | .attributeError c a => "type object " ++ c ++ " has no attribute " ++ a
  | .multipleResultsFound => "Multiple rows were found when one or none was required"
  | .valueError m => m

/-- `ErrorIncident` mapped columns (`app/models/error.py`). -/
structure ErrorIncident where
  id : Nat
  error_type : String
  error_message : String
  stack_trace : Option String := none
  file_path : Option String := none
  line_number : Option Int := none
  language : Option String := none
  severity : String
  service_name : String
  environment : String
  occurrence_count : Nat
  created_at : Nat
  resolved_at : Option Nat := none
  status : String
deriving Repr, DecidableEq

/-- The attributes defined on the `ErrorIncident` declarative class:
its mapped columns, the `remediation_attempts` relationship and the two
`@property` accessors.  Python resolves `ErrorIncident.<name>` by lookup
against exactly this set; any other name raises `AttributeError`. -/
def errorIncidentAttributes : List String :=
  ["id", "error_type", "error_message", "stack_trace", "file_path",
   "line_number", "language", "severity", "service_name", "environment",
   "occurrence_count", "created_at", "resolved_at", "status",
   "remediation_attempts", "is_resolved", "error_summary"]

/-- `RemediationAttempt` mapped columns (`app/models/error.py`). -/
structure RemediationAttempt where
  id : Nat
  incident_id : Nat
  cursor_cli_version : Option String := none
  analysis_prompt : Option String := none
  fix_suggestion : Option String := none
  test_results : Option String := none
  github_pr_url : Option String := none
  status : String := "started"
  created_at : Nat
  completed_at : Option Nat := none
deriving Repr, DecidableEq

/-- The mapped columns of the `RemediationAttempt` declarative class. -/
def remediationAttemptColumns : List String :=
  ["id", "incident_id", "cursor_cli_version", "analysis_prompt",
   "fix_suggestion", "test_results", "github_pr_url", "status",
   "created_at", "completed_at"]

/-- A live `RemediationAttempt` ORM instance: the mapped row plus the
plain (non-column) instance attributes that
`ErrorService.update_remediation_attempt` assigns.  Assigning to a name
that is not a mapped column just creates an ordinary Python attribute on
the instance; it is never flushed to the database. -/
structure RemediationAttemptObj where
  row : RemediationAttempt
  analysis_result : Option String := none
  fix_code : Option String := none
  pr_url : Option String := none
deriving Repr, DecidableEq

namespace ErrorService

/-- The four-field dedup fingerprint match used by
`_find_similar_incident` (`error_service.py` lines 494-498). -/
def fingerprintMatch (error_type service_name environment error_message : String)
    (i : ErrorIncident) : Bool :=
  i.error_type == error_type && i.service_name == service_name &&
    i.environment == environment && i.error_message == error_message

/-- The full `where` clause of `_find_similar_incident`: the fingerprint
match plus `status IN (open, investigating)`. -/
def similarPred (error_type service_name environment error_message : String)
    (i : ErrorIncident) : Bool :=
  fingerprintMatch error_type service_name environment error_message i &&
    (i.status == "open" || i.status == "investigating")

/-- `ErrorService._find_similar_incident`: one `select` filtered by the
fingerprint and `status IN (open, investigating)`, read with
`scalar_one_or_none`; any exception (including `MultipleResultsFound`)
is caught and turned into `None`. -/
def _find_similar_incident (s : List ErrorIncident)
    (error_type service_name environment error_message : String) :
    Option ErrorIncident :=
  match s.filter (similarPred error_type service_name environment error_message) with
  | [x] => some x
  | _ => none

/-- The fresh incident row built by `create_incident` on the no-match
branch (`error_service.py` lines 78-90): `occurrence_count` 1 and
`status` "open" are set explicitly, `created_at` defaults to now. -/
def newIncident (nextId now : Nat)
    (error_type severity service_name environment error_message : String)
    (stack_trace file_path : Option String) (line_number : Option Int)
    (language : Option String) : ErrorIncident :=
  { id := nextId
    error_type := error_type
    error_message := error_message
    stack_trace := stack_trace
    file_path := file_path
    line_number := line_number
    language := language
    severity := severity
    service_name := service_name
    environment := environment
    occurrence_count := 1
    created_at := now
    resolved_at := none
    status := "open" }

/-- `ErrorService.create_incident`: dedup lookup, then either an
increment of `occurrence_count` on the found row or an insert of a new
row.  `nextId`/`now` stand for the generated primary key and the
`created_at` default; the `metadata` argument is accepted and ignored,
as in the source. -/
def create_incident (s : List ErrorIncident) (nextId now : Nat)
    (error_type severity service_name environment error_message : String)
    (stack_trace file_path : Option String) (line_number : Option Int)
    (language : Option String) (metadata : Option String := none) :
    Except PyError ErrorIncident × List ErrorIncident :=
  match _find_similar_incident s error_type service_name environment error_message with
  | some ex =>
      (Except.ok { ex with occurrence_count := ex.occurrence_count + 1 },
       s.map (fun i =>
         if i.id = ex.id then { i with occurrence_count := i.occurrence_count + 1 } else i))
  | none =>
      let inc := newIncident nextId now error_type severity service_name
        environment error_message stack_trace file_path line_number language
      (Except.ok inc, s ++ [inc])

/-- `ErrorService.get_incident`: `scalar_one_or_none` over the rows with
the given id; more than one row raises, which the method wraps into
`DatabaseError`. -/
def get_incident (s : List ErrorIncident) (incident_id : Nat) :
    Except PyError (Option ErrorIncident) :=
  match s.filter (fun i => i.id == incident_id) with
  | [] => Except.ok none
  | [x] => Except.ok (some x)
  | _ => Except.error (.databaseError
      ("Failed to get error incident: " ++ errStr .multipleResultsFound)
      "get_incident")

/-- `ErrorService.update_incident_status`, with the source's `try`
structure made explicit: the body fetches the incident, raises
`NotFoundError` when absent, otherwise overwrites `status`; the
surrounding `except Exception` catches any raised error — including the
`NotFoundError` — rolls back, and re-raises it as `DatabaseError`. -/
def update_incident_status (s : List ErrorIncident) (incident_id : Nat)
    (status : String) : Except PyError ErrorIncident × List ErrorIncident :=
  let body : Except PyError ErrorIncident :=
    match get_incident s incident_id with
    | .error e => .error e
    | .ok none => .error (.notFound "ErrorIncident" (toString incident_id))
    | .ok (some inc) => .ok inc
  match body with
  | .error e =>
      (Except.error (.databaseError
        ("Failed to update incident status: " ++ errStr e)
        "update_incident_status"), s)
  | .ok inc =>
      (Except.ok { inc with status := status },
       s.map (fun i => if i.id = incident_id then { i with status := status } else i))

/-- The optional equality filters of `get_incidents`
(`error_service.py` lines 181-188), applied when the argument is
supplied. -/
def applyIncidentFilters (s : List ErrorIncident)
    (service_name environment severity status : Option String) :
    List ErrorIncident :=
  let s := match service_name with
    | some v => s.filter (fun i => i.service_name == v)
    | none => s
  let s := match environment with
    | some v => s.filter (fun i => i.environment == v)
    | none => s
  let s := match severity with
    | some v => s.filter (fun i => i.severity == v)
    | none => s
  match status with
  | some v => s.filter (fun i => i.status == v)
  | none => s

/-- `ErrorService.get_incidents`.  The very first statement builds
`order_by(desc(ErrorIncident.last_occurred))`; the attribute lookup of
`last_occurred` on the `ErrorIncident` class is modelled against
`errorIncidentAttributes`.  Since the class defines no such attribute
the lookup raises `AttributeError`, which the method's `except
Exception` wraps into `DatabaseError`.  The success branch (filters,
then offset/limit paging) is unreachable. -/
def get_incidents (s : List ErrorIncident)
    (service_name environment severity status : Option String)
    (limit offset : Nat) : Except PyError (List ErrorIncident) :=
  if "last_occurred" ∈ errorIncidentAttributes then
    Except.ok
      (((applyIncidentFilters s service_name environment severity status).drop
        offset).take limit)
  else
    Except.error (.databaseError
      ("Failed to get error incidents: " ++
        errStr (.attributeError "ErrorIncident" "last_occurred"))
      "get_incidents")

/-- `ErrorService.get_remediation_attempt` over the session's live
objects, same `scalar_one_or_none` shape as `get_incident`. -/
def get_remediation_attempt (objs : List RemediationAttemptObj)
    (attempt_id : Nat) : Except PyError (Option RemediationAttemptObj) :=
  match objs.filter (fun o => o.row.id == attempt_id) with
  | [] => Except.ok none
  | [x] => Except.ok (some x)
  | _ => Except.error (.databaseError
      ("Failed to get remediation attempt: " ++ errStr .multipleResultsFound)
      "get_remediation_attempt")

/-- The five conditional assignments of `update_remediation_attempt`
(`error_service.py` lines 444-453), in source order.  `status` and
`test_results` hit mapped columns of the row; `analysis_result`,
`fix_code` and `pr_url` are plain instance attributes (no such columns
exist on the model). -/
def applyAttemptUpdate (o : RemediationAttemptObj)
    (status analysis_result fix_code test_results pr_url : Option String) :
    RemediationAttemptObj :=
  let o := match status with
    | some v => { o with row := { o.row with status := v } }
    | none => o
  let o := match analysis_result with
    | some v => { o with analysis_result := some v }
    | none => o
  let o := match fix_code with
    | some v => { o with fix_code := some v }
    | none => o
  let o := match test_results with
    | some v => { o with row := { o.row with test_results := some v } }
    | none => o
  match pr_url with
  | some v => { o with pr_url := some v }
  | none => o

/-- `ErrorService.update_remediation_attempt`: fetch, raise
`NotFoundError` when absent (wrapped to `DatabaseError` by the `except`
block, as in `update_incident_status`), otherwise apply the conditional
assignments and commit. -/
def update_remediation_attempt (objs : List RemediationAttemptObj)
    (attempt_id : Nat)
    (status analysis_result fix_code test_results pr_url : Option String) :
    Except PyError RemediationAttemptObj × List RemediationAttemptObj :=
  let body : Except PyError RemediationAttemptObj :=
    match get_remediation_attempt objs attempt_id with
    | .error e => .error e
    | .ok none => .error (.notFound "RemediationAttempt" (toString attempt_id))
    | .ok (some o) => .ok o
  match body with
  | .error e =>
      (Except.error (.databaseError
        ("Failed to update remediation attempt: " ++ errStr e)
        "update_remediation_attempt"), objs)
  | .ok o =>
      (Except.ok (applyAttemptUpdate o status analysis_result fix_code test_results pr_url),
       objs.map (fun x =>
         if x.row.id = attempt_id then
           applyAttemptUpdate x status analysis_result fix_code test_results pr_url
         else x))

/-- A `RemediationAttempt` instance as materialised by a fresh session
(e.g. a later request): only the mapped columns are populated; the
plain instance attributes do not exist on the new object. -/
def fromRow (r : RemediationAttempt) : RemediationAttemptObj := { row := r }

/-- Reading an attempt back in a fresh session: only the durable rows
(the mapped columns of the live objects) are visible. -/
def freshReadAttempt (objs : List RemediationAttemptObj) (attempt_id : Nat) :
    Option RemediationAttemptObj :=
  match (objs.map (fun o => o.row)).filter (fun r => r.id == attempt_id) with
  | [x] => some (fromRow x)
  | _ => none

end ErrorService

namespace ApprovalService

/-- `ApprovalStatus` (`approval_service.py` lines 22-27). -/
inductive ApprovalStatus where
  | pending
  | approved
  | rejected
  | expired
deriving Repr, DecidableEq

/-- `str` value of an `ApprovalStatus` member. -/
def ApprovalStatus.str : ApprovalStatus → String
  | .pending => "pending"
  | .approved => "approved"
  | .rejected => "rejected"
  | .expired => "expired"

/-- `ApprovalType` (`approval_service.py` lines 30-34). -/
inductive ApprovalType where
  | automatic
  | manual
  | emergency
deriving Repr, DecidableEq

/-- The approval-record dict manipulated by the service.  The source
keeps these dicts in process memory only; nothing is ever written to or
read from a persistent store (`_create_approval_record` and
`_get_approval_record` both carry `TODO` markers to that effect). -/
structure ApprovalRecord where
  id : String
  incident_id : String
  status : ApprovalStatus
  approval_type : ApprovalType
  approvers : List String
  approved_by : Option String := none
  rejected_by : Option String := none
  comment : Option String := none
deriving Repr, DecidableEq

/-- `ApprovalService._get_approval_record` (`approval_service.py` lines
305-318): a hard-coded stand-in record.  It reads no stored state — for
every id it returns a fresh dict with status `pending` and approvers
`["admin", "tech-lead"]` (the `created_at` timestamp it also sets is
irrelevant here and omitted). -/
def _get_approval_record (approval_id : String) : ApprovalRecord :=
  { id := approval_id
    incident_id := "dummy-incident-id"
    status := .pending
    approval_type := .manual
    approvers := ["admin", "tech-lead"] }

/-- The dict returned by `_approve_remediation` / `_reject_remediation`
(timestamps omitted). -/
structure ProcessResult where
  approved : Bool
  by_user : String
  comment : Option String
  message : String
deriving Repr, DecidableEq

/-- `ApprovalService._approve_remediation`: mutates the record to
`approved` and returns the result dict. -/
def _approve_remediation (record : ApprovalRecord) (approver_id : String)
    (comment : Option String) : ProcessResult × ApprovalRecord :=
  let record := { record with
    status := .approved, approved_by := some approver_id, comment := comment }
  ({ approved := true, by_user := approver_id, comment := comment,
     message := "Remediation approved successfully" }, record)

/-- `ApprovalService._reject_remediation`: mutates the record to
`rejected` and returns the result dict. -/
def _reject_remediation (record : ApprovalRecord) (approver_id : String)
    (comment : Option String) : ProcessResult × ApprovalRecord :=
  let record := { record with
    status := .rejected, rejected_by := some approver_id, comment := comment }
  ({ approved := false, by_user := approver_id, comment := comment,
     message := "Remediation rejected" }, record)

/-- An audit-log row as assembled by `_log_approval_action`. -/
structure AuditAttempt where
  user_id : String
  action : String
  resource_id : String
  incident_id : String
  comment : Option String
deriving Repr, DecidableEq

/-- `ApprovalService._log_approval_action`: builds the audit row and
commits it.  Its whole body sits in a `try` whose `except` only logs —
a failing write (`auditFails`, e.g. the `uuid.UUID` parse of a
non-UUID id raising `ValueError`) is swallowed and nothing is
persisted.  Returns the attempted entries and the audit table after the
call. -/
def _log_approval_action (auditFails : Bool) (db : List AuditAttempt)
    (record : ApprovalRecord) (user_id action : String)
    (comment : Option String) : List AuditAttempt × List AuditAttempt :=
  let entry : AuditAttempt :=
    { user_id := user_id
      action := "approval_" ++ action
      resource_id := record.id
      incident_id := record.incident_id
      comment := comment }
  ([entry], if auditFails then db else db ++ [entry])

/-- The observable outcome of one `process_approval_response` call:
the returned-or-raised value, the record dict after the call, and the
audit-log writes that were attempted during the call. -/
structure Outcome where
  result : Except PyError ProcessResult
  record : ApprovalRecord
  auditAttempts : List AuditAttempt
deriving Repr, DecidableEq

/-- `Bool` view of a call outcome (`.ok` vs raised). -/
def resultOk : Except PyError ProcessResult → Bool
  | .ok _ => true
  | .error _ => false

/-- The `except Exception` wrapper of `process_approval_response`
(`approval_service.py` line 166). -/
def wrapProcessError (e : PyError) : PyError :=
  .databaseError ("Approval processing failed: " ++ errStr e)
    "process_approval_response"

/-- `ApprovalService.process_approval_response` (`approval_service.py`
lines 114-166).  In order: fetch the record (always the
`_get_approval_record` stub), reject non-pending records, reject
approvers outside the record's approver list, dispatch on the action
string (invalid actions raise), then write the audit log (failures
swallowed).  Every raised error is re-raised as `DatabaseError` by the
outer `except`.  The only cross-call state the service touches is the
audit table `db`. -/
def process_approval_response (auditFails : Bool) (db : List AuditAttempt)
    (approval_id approver_id action : String) (comment : Option String) :
    Outcome × List AuditAttempt :=
  let record := _get_approval_record approval_id
  if record.status ≠ ApprovalStatus.pending then
    ({ result := .error (wrapProcessError
         (.valueError ("Approval already " ++ record.status.str)))
       record := record, auditAttempts := [] }, db)
  else if approver_id ∈ record.approvers then
    if action = "approve" then
      let (res, record) := _approve_remediation record approver_id comment
      let (attempts, db) := _log_approval_action auditFails db record approver_id action comment
      ({ result := .ok res, record := record, auditAttempts := attempts }, db)
    else if action = "reject" then
      let (res, record) := _reject_remediation record approver_id comment
      let (attempts, db) := _log_approval_action auditFails db record approver_id action comment
      ({ result := .ok res, record := record, auditAttempts := attempts }, db)
    else
      ({ result := .error (wrapProcessError (.valueError ("Invalid action: " ++ action)))
         record := record, auditAttempts := [] }, db)
  else
    ({ result := .error (wrapProcessError (.valueError "Unauthorized approver"))
       record := record, auditAttempts := [] }, db)

end ApprovalService

namespace MonitoringService

/-- `AlertRule` (`monitoring_service.py` lines 25-45). -/
structure AlertRule where
  name : String
  condition : String
  threshold : Nat
  time_window : Nat
  severity : String := "medium"
  channels : List String := []
  enabled : Bool := true
  last_triggered : Option Nat := none
deriving Repr, DecidableEq

/-- A Slack notification emitted by the alert loop; `kind` is either
"firing" (`_send_alert_notification`) or "resolved"
(`_send_resolution_notification`). -/
structure Notification where
  channel : String
  rule_name : String
  kind : String
deriving Repr, DecidableEq

/-- Monitoring state shared across evaluation passes: the rule list and
the active-alert set (a Python `set` of rule names, modelled as a
duplicate-free list). -/
structure MonitoringState where
  alert_rules : List AlertRule
  active_alerts : List String
deriving Repr, DecidableEq

/-- `MonitoringService._trigger_alert`: returns immediately when the
rule name is already in the active set; otherwise adds it, stamps
`last_triggered`, and (when Slack is configured) sends one firing
notification per configured channel. -/
def _trigger_alert (configured : Bool) (now : Nat) (active : List String)
    (rule : AlertRule) : List String × AlertRule × List Notification :=
  if rule.name ∈ active then (active, rule, [])
  else
    (rule.name :: active,
     { rule with last_triggered := some now },
     if configured then
       rule.channels.map (fun c =>
         { channel := c, rule_name := rule.name, kind := "firing" })
     else [])

/-- `MonitoringService._resolve_alert`: when the rule name is in the
active set, removes it and (when Slack is configured) sends one
resolution notification per configured channel. -/
def _resolve_alert (configured : Bool) (active : List String)
    (rule : AlertRule) : List String × List Notification :=
  if rule.name ∈ active then
    (active.erase rule.name,
     if configured then
       rule.channels.map (fun c =>
         { channel := c, rule_name := rule.name, kind := "resolved" })
     else [])
  else (active, [])

/-- One iteration of the `for rule in self.alert_rules` body of
`_check_alert_rules`: disabled rules are skipped; a true evaluation
triggers; a false evaluation resolves only when the rule is currently
active. -/
def checkRuleStep (configured : Bool) (evalRule : AlertRule → Bool) (now : Nat)
    (acc : List AlertRule × List String × List Notification)
    (rule : AlertRule) : List AlertRule × List String × List Notification :=
  let (rules, active, notifs) := acc
  if rule.enabled then
    if evalRule rule then
      let (active, rule, ns) := _trigger_alert configured now active rule
      (rules ++ [rule], active, notifs ++ ns)
    else if rule.name ∈ active then
      let (active, ns) := _resolve_alert configured active rule
      (rules ++ [rule], active, notifs ++ ns)
    else (rules ++ [rule], active, notifs)
  else (rules ++ [rule], active, notifs)

/-- `MonitoringService._check_alert_rules`: one evaluation pass over
every rule.  `evalRule` abstracts `_evaluate_rule` (a function of the
rule and the incident store at that instant); `configured` abstracts
`slack_service.is_configured()`. -/
def _check_alert_rules (configured : Bool) (evalRule : AlertRule → Bool)
    (now : Nat) (st : MonitoringState) : MonitoringState × List Notification :=
  let (rules, active, notifs) :=
    st.alert_rules.foldl (checkRuleStep configured evalRule now)
      ([], st.active_alerts, [])
  ({ alert_rules := rules, active_alerts := active }, notifs)

/-- `MonitoringService._setup_default_rules`: the four rules seeded at
construction. -/
def _setup_default_rules : List AlertRule :=
  [{ name := "critical_error_spike", condition := "critical_errors",
     threshold := 3, time_window := 5, severity := "critical",
     channels := ["alerts-critical"] },
   { name := "high_error_rate", condition := "error_rate",
     threshold := 10, time_window := 10, severity := "high",
     channels := ["alerts-high"] },
   { name := "service_error_spike", condition := "service_errors",
     threshold := 5, time_window := 15, severity := "medium",
     channels := ["alerts-medium"] },
   { name := "remediation_failure_rate", condition := "remediation_failures",
     threshold := 3, time_window := 30, severity := "high",
     channels := ["alerts-remediation"] }]

end MonitoringService

/-- A sample persisted attempt row used by the concrete witnesses. -/
def demoAttemptRow : RemediationAttempt :=
  { id := 3
    incident_id := 1
    analysis_prompt := some "prompt0"
    fix_suggestion := some "suggestion0"
    test_results := some "tests0"
    status := "analyzed"
    created_at := 0 }

/-- A sample in-session attempt object with a previously-set (plain,
non-column) `fix_code` attribute. -/
def demoAttemptObj : RemediationAttemptObj :=
  { row := demoAttemptRow, fix_code := some "previous-fix" }

/-! ### Shared list lemmas -/

theorem filter_eq_nil_of_imp {α} {p q : α → Bool} {l : List α}
    (h : l.filter p = []) (himp : ∀ x, q x = true → p x = true) :
    l.filter q = [] := by
  rw [List.filter_eq_nil_iff] at h ⊢
  intro a ha hq
  exact h a ha (himp a hq)

theorem map_eq_self_of_mem {α} {f : α → α} {l : List α}
    (h : ∀ x ∈ l, f x = x) : l.map f = l := by
  induction l with
  | nil => rfl
  | cons a l ih =>
      simp only [List.map_cons]
      rw [h a (by simp), ih (fun x hx => h x (by simp [hx]))]

theorem filter_map_comm {α} {f : α → α} {p : α → Bool}
    (h : ∀ x, p (f x) = p x) (l : List α) :
    (l.map f).filter p = (l.filter p).map f := by
  induction l with
  | nil => rfl
  | cons a l ih =>
      by_cases hp : p a = true
      · simp [List.filter_cons, h a, hp, ih]
      · simp only [Bool.not_eq_true] at hp
        simp [List.filter_cons, h a, hp, ih]

/-! ### Claim theorems -/

open ErrorService ApprovalService MonitoringService

theorem update_remediation_attempt_eq_of_found
    (objs : List RemediationAttemptObj) (attempt_id : Nat)
    (obj : RemediationAttemptObj) (st ar fc tr pu : Option String)
    (h : get_remediation_attempt objs attempt_id = Except.ok (some obj)) :
    update_remediation_attempt objs attempt_id st ar fc tr pu =
      (Except.ok (applyAttemptUpdate obj st ar fc tr pu),
        objs.map (fun x =>
          if x.row.id = attempt_id then applyAttemptUpdate x st ar fc tr pu
          else x)) := by
  unfold update_remediation_attempt
  rw [h]

theorem similarPred_imp_fingerprint (et sn env em : String) :
    ∀ i, similarPred et sn env em i = true →
      fingerprintMatch et sn env em i = true := by
  intro i h
  rw [similarPred, Bool.and_eq_true] at h
  exact h.1

/-- Claim C1: calling `create_incident` twice with an identical
fingerprint, starting from a store with no row for that fingerprint,
leaves a single row for the fingerprint with `occurrence_count = 2`;
the second call returns that same row (same primary key) instead of
inserting a new one. -/
theorem create_incident_dedup_idempotent
    (s : List ErrorIncident) (n1 n2 t1 t2 : Nat)
    (et sev sn env em : String) (stk fpath : Option String) (ln : Option Int)
    (lang : Option String)
    (hfp : s.filter (fingerprintMatch et sn env em) = [])
    (hid : ∀ i ∈ s, i.id ≠ n1) :
    create_incident s n1 t1 et sev sn env em stk fpath ln lang =
      (Except.ok (newIncident n1 t1 et sev sn env em stk fpath ln lang),
        s ++ [newIncident n1 t1 et sev sn env em stk fpath ln lang]) ∧
    create_incident (s ++ [newIncident n1 t1 et sev sn env em stk fpath ln lang])
        n2 t2 et sev sn env em stk fpath ln lang =
      (Except.ok { newIncident n1 t1 et sev sn env em stk fpath ln lang with
          occurrence_count := 2 },
        s ++ [{ newIncident n1 t1 et sev sn env em stk fpath ln lang with
          occurrence_count := 2 }]) ∧
    (s ++ [{ newIncident n1 t1 et sev sn env em stk fpath ln lang with
        occurrence_count := 2 }]).filter (fingerprintMatch et sn env em) =
      [{ newIncident n1 t1 et sev sn env em stk fpath ln lang with
        occurrence_count := 2 }] := by
  have hsfilter : s.filter (similarPred et sn env em) = [] :=
    filter_eq_nil_of_imp hfp (similarPred_imp_fingerprint et sn env em)
  have hsim1 : _find_similar_incident s et sn env em = none := by
    unfold _find_similar_incident
    rw [hsfilter]
  have hpred1 : similarPred et sn env em
      (newIncident n1 t1 et sev sn env em stk fpath ln lang) = true := by
    simp [similarPred, fingerprintMatch, newIncident]
  have hsim2 : _find_similar_incident
      (s ++ [newIncident n1 t1 et sev sn env em stk fpath ln lang]) et sn env em =
      some (newIncident n1 t1 et sev sn env em stk fpath ln lang) := by
    unfold _find_similar_incident
    rw [List.filter_append, hsfilter, List.filter_cons]
    simp [hpred1]
  refine ⟨?_, ?_, ?_⟩
  · unfold create_incident
    rw [hsim1]
  · unfold create_incident
    rw [hsim2]
    simp only [List.map_append, List.map_cons, List.map_nil]
    have hmap : s.map (fun i =>
        if i.id = (newIncident n1 t1 et sev sn env em stk fpath ln lang).id then
          { i with occurrence_count := i.occurrence_count + 1 } else i) = s := by
      apply map_eq_self_of_mem
      intro x hx
      rw [if_neg]
      intro hcontra
      exact hid x hx (by simpa [newIncident] using hcontra)
    rw [hmap]
    simp [newIncident]
  · rw [List.filter_append, hfp, List.filter_cons]
    have : fingerprintMatch et sn env em
        { newIncident n1 t1 et sev sn env em stk fpath ln lang with
          occurrence_count := 2 } = true := by
      simp [fingerprintMatch, newIncident]
    simp [this]

theorem create_incident_dedup_idempotent_witness :
    ([] : List ErrorIncident).filter
      (fingerprintMatch "ValueError" "svc" "production" "boom") = [] ∧
    create_incident
        ([] ++ [newIncident 1 10 "ValueError" "high" "svc" "production" "boom"
          none none none none]) 2 20 "ValueError" "high" "svc" "production" "boom"
        none none none none =
      (Except.ok { newIncident 1 10 "ValueError" "high" "svc" "production" "boom"
          none none none none with occurrence_count := 2 },
        [] ++ [{ newIncident 1 10 "ValueError" "high" "svc" "production" "boom"
          none none none none with occurrence_count := 2 }]) :=
  ⟨rfl,
   (create_incident_dedup_idempotent [] 1 2 10 20 "ValueError" "high" "svc"
      "production" "boom" none none none none rfl (by simp)).2.1⟩

/-- Claim C2: when the only incident for a fingerprint has been advanced
to status "resolved" via `update_incident_status`, a subsequent
`create_incident` with the identical fingerprint inserts a new row with
`occurrence_count = 1` and status "open" instead of incrementing the
resolved row (whose `occurrence_count` stays 1). -/
theorem create_incident_dedup_boundary
    (s : List ErrorIncident) (n1 n2 t1 t2 : Nat)
    (et sev sn env em : String) (stk fpath : Option String) (ln : Option Int)
    (lang : Option String)
    (hfp : s.filter (fingerprintMatch et sn env em) = [])
    (hid : ∀ i ∈ s, i.id ≠ n1) :
    update_incident_status
        (s ++ [newIncident n1 t1 et sev sn env em stk fpath ln lang]) n1 "resolved" =
      (Except.ok { newIncident n1 t1 et sev sn env em stk fpath ln lang with
          status := "resolved" },
        s ++ [{ newIncident n1 t1 et sev sn env em stk fpath ln lang with
          status := "resolved" }]) ∧
    create_incident
        (s ++ [{ newIncident n1 t1 et sev sn env em stk fpath ln lang with
          status := "resolved" }]) n2 t2 et sev sn env em stk fpath ln lang =
      (Except.ok (newIncident n2 t2 et sev sn env em stk fpath ln lang),
        s ++ [{ newIncident n1 t1 et sev sn env em stk fpath ln lang with
          status := "resolved" },
          newIncident n2 t2 et sev sn env em stk fpath ln lang]) ∧
    (newIncident n2 t2 et sev sn env em stk fpath ln lang).occurrence_count = 1 ∧
    (newIncident n2 t2 et sev sn env em stk fpath ln lang).status = "open" ∧
    ({ newIncident n1 t1 et sev sn env em stk fpath ln lang with
        status := "resolved" }).occurrence_count = 1 := by
  have hidfilter : s.filter (fun i => i.id == n1) = [] := by
    rw [List.filter_eq_nil_iff]
    intro a ha
    simp [hid a ha]
  have hget : get_incident
      (s ++ [newIncident n1 t1 et sev sn env em stk fpath ln lang]) n1 =
      Except.ok (some (newIncident n1 t1 et sev sn env em stk fpath ln lang)) := by
    unfold get_incident
    rw [List.filter_append, hidfilter, List.filter_cons]
    simp [newIncident]
  have hsfilter : s.filter (similarPred et sn env em) = [] :=
    filter_eq_nil_of_imp hfp (similarPred_imp_fingerprint et sn env em)
  refine ⟨?_, ?_, by simp [newIncident], by simp [newIncident], by simp [newIncident]⟩
  · unfold update_incident_status
    rw [hget]
    simp only [List.map_append, List.map_cons, List.map_nil]
    have hmap : s.map (fun i =>
        if i.id = n1 then { i with status := "resolved" } else i) = s := by
      apply map_eq_self_of_mem
      intro x hx
      exact if_neg (hid x hx)
    rw [hmap]
    simp [newIncident]
  · have hsim : _find_similar_incident
        (s ++ [{ newIncident n1 t1 et sev sn env em stk fpath ln lang with
          status := "resolved" }]) et sn env em = none := by
      unfold _find_similar_incident
      rw [List.filter_append, hsfilter, List.filter_cons]
      have : similarPred et sn env em
          { newIncident n1 t1 et sev sn env em stk fpath ln lang with
            status := "resolved" } = false := by
        simp [similarPred, fingerprintMatch, newIncident]
      simp [this]
    unfold create_incident
    rw [hsim]
    simp

theorem create_incident_dedup_boundary_witness :
    ([] : List ErrorIncident).filter
      (fingerprintMatch "ValueError" "svc" "production" "boom") = [] ∧
    create_incident
        ([] ++ [{ newIncident 1 10 "ValueError" "high" "svc" "production" "boom"
          none none none none with status := "resolved" }]) 2 20
        "ValueError" "high" "svc" "production" "boom" none none none none =
      (Except.ok (newIncident 2 20 "ValueError" "high" "svc" "production" "boom"
          none none none none),
        [] ++ [{ newIncident 1 10 "ValueError" "high" "svc" "production" "boom"
          none none none none with status := "resolved" },
          newIncident 2 20 "ValueError" "high" "svc" "production" "boom"
          none none none none]) :=
  ⟨rfl,
   (create_incident_dedup_boundary [] 1 2 10 20 "ValueError" "high" "svc"
      "production" "boom" none none none none rfl (by simp)).2.1⟩

/-- Claim C7 (code bug): for a missing incident id,
`update_incident_status` raises `NotFoundError` inside its own `try`
block, so the blanket `except Exception` catches it and re-raises a
generic `DatabaseError` — the caller (see the endpoint's dead
`except NotFoundError` handler) never sees a distinguishable not-found
failure.  The existing-incident half of the claim does hold: the status
is overwritten unconditionally, with no vocabulary or transition
validation (closed-to-open and an unrecognized value both succeed). -/
theorem update_incident_status_wraps_notfound :
    update_incident_status ([] : List ErrorIncident) 7 "resolved" =
      (Except.error (PyError.databaseError
        ("Failed to update incident status: " ++
          errStr (.notFound "ErrorIncident" "7"))
        "update_incident_status"), []) ∧
    update_incident_status
        [{ newIncident 5 0 "E" "low" "svc" "dev" "m" none none none none with
          status := "closed" }] 5 "open" =
      (Except.ok { newIncident 5 0 "E" "low" "svc" "dev" "m" none none none none with
          status := "open" },
        [{ newIncident 5 0 "E" "low" "svc" "dev" "m" none none none none with
          status := "open" }]) ∧
    update_incident_status
        [newIncident 5 0 "E" "low" "svc" "dev" "m" none none none none]
        5 "not-a-recognized-status" =
      (Except.ok { newIncident 5 0 "E" "low" "svc" "dev" "m" none none none none with
          status := "not-a-recognized-status" },
        [{ newIncident 5 0 "E" "low" "svc" "dev" "m" none none none none with
          status := "not-a-recognized-status" }]) :=
  ⟨rfl, rfl, rfl⟩

/-- Claim C8 (code bug): `get_incidents` builds
`order_by(desc(ErrorIncident.last_occurred))`, but the `ErrorIncident`
class defines no attribute `last_occurred`, so every call — whatever the
filters and paging — raises and is re-raised as `DatabaseError`; no
incident list is ever returned. -/
theorem get_incidents_always_raises :
    (∀ (s : List ErrorIncident) (sn env sev stat : Option String) (lim off : Nat),
      get_incidents s sn env sev stat lim off =
        Except.error (PyError.databaseError
          ("Failed to get error incidents: " ++
            errStr (.attributeError "ErrorIncident" "last_occurred"))
          "get_incidents")) ∧
    "last_occurred" ∉ errorIncidentAttributes := by
  constructor
  · intro s sn env sev stat lim off
    unfold get_incidents
    rw [if_neg (by decide)]
  · decide

/-- Claim C6: `update_remediation_attempt` is a partial update — the
call writes exactly the supplied (non-None) arguments and every other
field of the attempt keeps its prior value; in particular a status-only
call leaves previously-set `fix_code` and `test_results` untouched.
The second conjunct characterises the assignment step pointwise for an
arbitrary in-session object (arbitrary prior values of every field). -/
theorem update_remediation_attempt_only_supplied_fields
    (objs : List RemediationAttemptObj) (attempt_id : Nat)
    (obj : RemediationAttemptObj) (st ar fc tr pu : Option String)
    (h : get_remediation_attempt objs attempt_id = Except.ok (some obj)) :
    update_remediation_attempt objs attempt_id st ar fc tr pu =
      (Except.ok (applyAttemptUpdate obj st ar fc tr pu),
        objs.map (fun x =>
          if x.row.id = attempt_id then applyAttemptUpdate x st ar fc tr pu
          else x)) ∧
    ∀ o : RemediationAttemptObj,
      (applyAttemptUpdate o st ar fc tr pu).row.status =
        (match st with | some v => v | none => o.row.status) ∧
      (applyAttemptUpdate o st ar fc tr pu).row.test_results =
        (match tr with | some v => some v | none => o.row.test_results) ∧
      (applyAttemptUpdate o st ar fc tr pu).analysis_result =
        (match ar with | some v => some v | none => o.analysis_result) ∧
      (applyAttemptUpdate o st ar fc tr pu).fix_code =
        (match fc with | some v => some v | none => o.fix_code) ∧
      (applyAttemptUpdate o st ar fc tr pu).pr_url =
        (match pu with | some v => some v | none => o.pr_url) ∧
      (applyAttemptUpdate o st ar fc tr pu).row.id = o.row.id ∧
      (applyAttemptUpdate o st ar fc tr pu).row.incident_id = o.row.incident_id ∧
      (applyAttemptUpdate o st ar fc tr pu).row.cursor_cli_version =
        o.row.cursor_cli_version ∧
      (applyAttemptUpdate o st ar fc tr pu).row.analysis_prompt =
        o.row.analysis_prompt ∧
      (applyAttemptUpdate o st ar fc tr pu).row.fix_suggestion =
        o.row.fix_suggestion ∧
      (applyAttemptUpdate o st ar fc tr pu).row.github_pr_url =
        o.row.github_pr_url ∧
      (applyAttemptUpdate o st ar fc tr pu).row.created_at = o.row.created_at ∧
      (applyAttemptUpdate o st ar fc tr pu).row.completed_at = o.row.completed_at := by
  constructor
  · exact update_remediation_attempt_eq_of_found objs attempt_id obj st ar fc tr pu h
  · intro o
    cases st <;> cases ar <;> cases fc <;> cases tr <;> cases pu <;>
      simp [applyAttemptUpdate]

theorem update_remediation_attempt_only_supplied_fields_witness :
    get_remediation_attempt [demoAttemptObj] 3 = Except.ok (some demoAttemptObj) ∧
    update_remediation_attempt [demoAttemptObj] 3 (some "fixed") none none none none =
      (Except.ok (applyAttemptUpdate demoAttemptObj (some "fixed") none none none none),
        [demoAttemptObj].map (fun x =>
          if x.row.id = 3 then applyAttemptUpdate x (some "fixed") none none none none
          else x)) :=
  ⟨rfl,
   (update_remediation_attempt_only_supplied_fields [demoAttemptObj] 3 demoAttemptObj
      (some "fixed") none none none none rfl).1⟩

/-- Claim C10 (implicit): the `analysis_result`, `fix_code` and `pr_url`
arguments of `update_remediation_attempt` are assigned to attribute
names that are not mapped columns of `RemediationAttempt` (the persisted
columns are `analysis_prompt`, `fix_suggestion`, `github_pr_url`, ...),
so only `status` and `test_results` change the durable row: a fresh read
of the attempt reflects the new status and test results, keeps the
previous `analysis_prompt` / `fix_suggestion` / `github_pr_url` column
values, and carries no `analysis_result` / `fix_code` / `pr_url`
attributes at all. -/
theorem update_remediation_attempt_dropped_fields
    (objs : List RemediationAttemptObj) (attempt_id : Nat)
    (obj : RemediationAttemptObj) (stv arv fcv trv puv : String)
    (h : objs.filter (fun o => o.row.id == attempt_id) = [obj]) :
    (update_remediation_attempt objs attempt_id
        (some stv) (some arv) (some fcv) (some trv) (some puv)).1 =
      Except.ok (applyAttemptUpdate obj
        (some stv) (some arv) (some fcv) (some trv) (some puv)) ∧
    freshReadAttempt
        (update_remediation_attempt objs attempt_id
          (some stv) (some arv) (some fcv) (some trv) (some puv)).2 attempt_id =
      some (fromRow { obj.row with status := stv, test_results := some trv }) ∧
    (fromRow { obj.row with status := stv, test_results := some trv }).analysis_result
      = none ∧
    (fromRow { obj.row with status := stv, test_results := some trv }).fix_code
      = none ∧
    (fromRow { obj.row with status := stv, test_results := some trv }).pr_url
      = none ∧
    ({ obj.row with status := stv, test_results := some trv }).analysis_prompt
      = obj.row.analysis_prompt ∧
    ({ obj.row with status := stv, test_results := some trv }).fix_suggestion
      = obj.row.fix_suggestion ∧
    ({ obj.row with status := stv, test_results := some trv }).github_pr_url
      = obj.row.github_pr_url ∧
    "analysis_result" ∉ remediationAttemptColumns ∧
    "fix_code" ∉ remediationAttemptColumns ∧
    "pr_url" ∉ remediationAttemptColumns := by
  have hget : get_remediation_attempt objs attempt_id = Except.ok (some obj) := by
    unfold get_remediation_attempt
    rw [h]
  have hupd := update_remediation_attempt_eq_of_found objs attempt_id obj
    (some stv) (some arv) (some fcv) (some trv) (some puv) hget
  have hobjid : (obj.row.id == attempt_id) = true := by
    have := List.mem_filter.mp (h ▸ List.mem_singleton_self obj)
    exact this.2
  have happly : (applyAttemptUpdate obj
      (some stv) (some arv) (some fcv) (some trv) (some puv)).row =
      { obj.row with status := stv, test_results := some trv } := by
    simp [applyAttemptUpdate]
  refine ⟨?_, ?_, rfl, rfl, rfl, rfl, rfl, rfl, by decide, by decide, by decide⟩
  · rw [hupd]
  · rw [hupd]
    unfold freshReadAttempt
    rw [List.map_map, List.filter_map]
    have hcongr : objs.filter ((fun r => r.id == attempt_id) ∘
        ((fun o => o.row) ∘ (fun x =>
          if x.row.id = attempt_id then applyAttemptUpdate x
            (some stv) (some arv) (some fcv) (some trv) (some puv)
          else x))) = objs.filter (fun o => o.row.id == attempt_id) := by
      apply List.filter_congr
      intro x _
      by_cases hx : x.row.id = attempt_id
      · simp only [Function.comp_apply, if_pos hx]
        have : (applyAttemptUpdate x
            (some stv) (some arv) (some fcv) (some trv) (some puv)).row.id =
            x.row.id := by
          simp [applyAttemptUpdate]
        rw [this]
      · simp only [Function.comp_apply, if_neg hx]
    rw [hcongr, h]
    simp only [List.map_cons, List.map_nil, Function.comp_apply]
    rw [if_pos (Nat.eq_of_beq_eq_true (by simpa using hobjid)), happly]

theorem update_remediation_attempt_dropped_fields_witness :
    [demoAttemptObj].filter (fun o => o.row.id == 3) = [demoAttemptObj] ∧
    freshReadAttempt
        (update_remediation_attempt [demoAttemptObj] 3 (some "fixed")
          (some "analysis1") (some "fix1") (some "tests1") (some "pr1")).2 3 =
      some (fromRow { demoAttemptObj.row with
        status := "fixed", test_results := some "tests1" }) :=
  ⟨rfl,
   (update_remediation_attempt_dropped_fields [demoAttemptObj] 3 demoAttemptObj
      "fixed" "analysis1" "fix1" "tests1" "pr1" rfl).2.1⟩

/-- Claim C4: `process_approval_response` with an `approver_id` outside
the record's approvers list raises (surfaced as the wrapped
`DatabaseError`) for every action value, attempts no audit write, and
leaves the record unchanged (still `pending`). -/
theorem process_approval_response_unauthorized
    (auditFails : Bool) (db : List AuditAttempt)
    (approval_id approver_id action : String) (comment : Option String)
    (h : approver_id ∉ (_get_approval_record approval_id).approvers) :
    (process_approval_response auditFails db approval_id approver_id action
        comment).1.result =
      Except.error (wrapProcessError (.valueError "Unauthorized approver")) ∧
    (process_approval_response auditFails db approval_id approver_id action
        comment).1.record = _get_approval_record approval_id ∧
    (process_approval_response auditFails db approval_id approver_id action
        comment).1.record.status = ApprovalStatus.pending ∧
    (process_approval_response auditFails db approval_id approver_id action
        comment).1.auditAttempts = [] ∧
    (process_approval_response auditFails db approval_id approver_id action
        comment).2 = db := by
  simp only [process_approval_response]
  rw [if_neg (fun hc => hc rfl), if_neg h]
  exact ⟨rfl, rfl, rfl, rfl, rfl⟩

theorem process_approval_response_unauthorized_witness :
    "mallory" ∉ (_get_approval_record "approval-123").approvers ∧
    (process_approval_response false [] "approval-123" "mallory" "approve"
        none).1.result =
      Except.error (wrapProcessError (.valueError "Unauthorized approver")) :=
  ⟨by decide,
   (process_approval_response_unauthorized false [] "approval-123" "mallory"
      "approve" none (by decide)).1⟩

/-- Claim C5 counterexample: a `process_approval_response` call that
fails the authorization check is handled without a single audit-log
attempt — refuting, at a concrete input, that every call attempts an
audit write regardless of outcome. -/
theorem process_approval_no_audit_on_failure :
    (process_approval_response false [] "approval-123" "intruder" "approve"
        none).1.auditAttempts = [] ∧
    (process_approval_response false [] "approval-123" "intruder" "approve"
        none).1.result =
      Except.error (wrapProcessError (.valueError "Unauthorized approver")) ∧
    (process_approval_response false [] "approval-123" "intruder" "approve"
        none).2 = [] :=
  ⟨rfl, rfl, rfl⟩

/-- Claim C5 (amended): an audit-log write is attempted exactly when
the approval action itself succeeds (record pending, approver
authorized, action approve/reject) — failed calls make no attempt; and
a failure of the audit write itself is swallowed: whether the audit
write fails changes neither the returned result nor the record. -/
theorem process_approval_audit_semantics
    (auditFails : Bool) (db : List AuditAttempt)
    (approval_id approver_id action : String) (comment : Option String) :
    (process_approval_response auditFails db approval_id approver_id action
        comment).1.result =
      (process_approval_response false db approval_id approver_id action
        comment).1.result ∧
    (process_approval_response auditFails db approval_id approver_id action
        comment).1.record =
      (process_approval_response false db approval_id approver_id action
        comment).1.record ∧
    (resultOk (process_approval_response auditFails db approval_id approver_id
        action comment).1.result = true ↔
      (process_approval_response auditFails db approval_id approver_id action
        comment).1.auditAttempts ≠ []) := by
  by_cases hmem : approver_id ∈ (["admin", "tech-lead"] : List String)
  · by_cases ha : action = "approve"
    · subst ha
      simp [process_approval_response, _get_approval_record,
        _approve_remediation, _log_approval_action, resultOk, hmem]
    · by_cases hr : action = "reject"
      · subst hr
        simp [process_approval_response, _get_approval_record,
          _reject_remediation, _log_approval_action, resultOk, hmem]
      · simp [process_approval_response, _get_approval_record, resultOk,
          hmem, ha, hr]
  · simp [process_approval_response, _get_approval_record, resultOk, hmem]

theorem process_approval_audit_semantics_witness :
    (process_approval_response true [] "approval-123" "admin" "approve"
        none).1.result =
      (process_approval_response false [] "approval-123" "admin" "approve"
        none).1.result ∧
    (resultOk (process_approval_response true [] "approval-123" "admin"
        "approve" none).1.result = true ↔
      (process_approval_response true [] "approval-123" "admin" "approve"
        none).1.auditAttempts ≠ []) :=
  ⟨(process_approval_audit_semantics true [] "approval-123" "admin" "approve"
      none).1,
   (process_approval_audit_semantics true [] "approval-123" "admin" "approve"
      none).2.2⟩

/-- Claim C3 (code bug): approval records are never persisted —
`_get_approval_record` fabricates a fresh `pending` record on every
call — so after a first call drives the record for "approval-123" to
`approved`, a second `process_approval_response` for the same id (run
against the audit table the first call left behind, the only cross-call
state the service keeps) succeeds again instead of failing.  The guard
at lines 137-138 of `approval_service.py` rejects non-pending records,
but it never fires because the fetched record is always pending. -/
theorem process_approval_reprocessing_succeeds :
    (process_approval_response false [] "approval-123" "admin" "approve"
        none).1.record.status = ApprovalStatus.approved ∧
    resultOk (process_approval_response false [] "approval-123" "admin"
        "approve" none).1.result = true ∧
    resultOk (process_approval_response false
        (process_approval_response false [] "approval-123" "admin" "approve"
          none).2
        "approval-123" "admin" "approve" none).1.result = true :=
  ⟨rfl, rfl, rfl⟩

/-- Claim C9: for an enabled rule with one notification channel
(Slack configured), two consecutive passes whose condition evaluates
true send exactly one firing notification — the rule name enters the
active set on the first pass and set membership suppresses the second —
and a later pass evaluating false sends exactly one resolution
notification and removes the name from the active set. -/
theorem alert_dedup_and_resolution
    (r : AlertRule) (c : String) (a0 : List String)
    (eval1 eval2 eval3 : AlertRule → Bool) (t1 t2 t3 : Nat)
    (hen : r.enabled = true) (hch : r.channels = [c]) (hna : r.name ∉ a0)
    (h1 : eval1 r = true)
    (h2 : eval2 { r with last_triggered := some t1 } = true)
    (h3 : eval3 { r with last_triggered := some t1 } = false) :
    _check_alert_rules true eval1 t1
        { alert_rules := [r], active_alerts := a0 } =
      ({ alert_rules := [{ r with last_triggered := some t1 }],
         active_alerts := r.name :: a0 },
       [{ channel := c, rule_name := r.name, kind := "firing" }]) ∧
    _check_alert_rules true eval2 t2
        { alert_rules := [{ r with last_triggered := some t1 }],
          active_alerts := r.name :: a0 } =
      ({ alert_rules := [{ r with last_triggered := some t1 }],
         active_alerts := r.name :: a0 }, []) ∧
    _check_alert_rules true eval3 t3
        { alert_rules := [{ r with last_triggered := some t1 }],
          active_alerts := r.name :: a0 } =
      ({ alert_rules := [{ r with last_triggered := some t1 }],
         active_alerts := a0 },
       [{ channel := c, rule_name := r.name, kind := "resolved" }]) ∧
    r.name ∉ a0 := by
  refine ⟨?_, ?_, ?_, hna⟩
  · simp only [_check_alert_rules, List.foldl_cons, List.foldl_nil,
      checkRuleStep, _trigger_alert]
    rw [if_pos hen, if_pos h1, if_neg hna]
    simp [hch]
  · simp only [_check_alert_rules, List.foldl_cons, List.foldl_nil,
      checkRuleStep, _trigger_alert]
    rw [if_pos hen, if_pos h2,
      if_pos (show ({ r with last_triggered := some t1 } : AlertRule).name ∈
        r.name :: a0 from List.mem_cons_self r.name a0)]
    simp
  · simp only [_check_alert_rules, List.foldl_cons, List.foldl_nil,
      checkRuleStep, _resolve_alert]
    rw [if_pos hen, if_neg (by rw [h3]; exact Bool.false_ne_true),
      if_pos (show ({ r with last_triggered := some t1 } : AlertRule).name ∈
        r.name :: a0 from List.mem_cons_self r.name a0),
      if_pos (show ({ r with last_triggered := some t1 } : AlertRule).name ∈
        r.name :: a0 from List.mem_cons_self r.name a0)]
    simp [hch, List.erase_cons_head]

theorem alert_dedup_and_resolution_witness :
    ({ name := "critical_error_spike", condition := "critical_errors",
        threshold := 3, time_window := 5, severity := "critical",
        channels := ["alerts-critical"] } : AlertRule).enabled = true ∧
    "critical_error_spike" ∉ ([] : List String) ∧
    _check_alert_rules true (fun _ => true) 1
        { alert_rules :=
            [{ name := "critical_error_spike", condition := "critical_errors",
               threshold := 3, time_window := 5, severity := "critical",
               channels := ["alerts-critical"] }],
          active_alerts := [] } =
      ({ alert_rules :=
            [{ name := "critical_error_spike", condition := "critical_errors",
               threshold := 3, time_window := 5, severity := "critical",
               channels := ["alerts-critical"], last_triggered := some 1 }],
         active_alerts := ["critical_error_spike"] },
       [{ channel := "alerts-critical", rule_name := "critical_error_spike",
          kind := "firing" }]) :=
  ⟨rfl, by simp,
   (alert_dedup_and_resolution
      { name := "critical_error_spike", condition := "critical_errors",
        threshold := 3, time_window := 5, severity := "critical",
        channels := ["alerts-critical"] }
      "alerts-critical" [] (fun _ => true) (fun _ => true) (fun _ => false)
      1 2 3 rfl rfl (by simp) rfl rfl rfl).1⟩
